import Mathlib

/-!
# Tuit controller and server bootstrap

A shallow embedding of `build/controllers/TuitController.js` and of the parts of
`build/server.js` that do not depend on other modules: the singleton accessor
`TuitController.getInstance`, the six request handlers it binds, the route
patterns it registers, the `/add/:a/:b` route and the choice of the listening
port.
-/

namespace TuitApp

/-! ## Route tables -/

/-- HTTP methods. Routes are registered for the first four (`app.get`, `app.post`,
`app.put`, `app.delete`); a request may carry any of them. -/
inductive Method
  | GET
  | POST
  | PUT
  | DELETE
  | HEAD
  | PATCH
  | OPTIONS
  deriving DecidableEq, Repr

/-- The six handler properties a `TuitController` instance carries. -/
inductive HandlerName
  | findAllTuits
  | findTuitsByUser
  | findTuitById
  | createTuitByUser
  | updateTuit
  | deleteTuit
  deriving DecidableEq, Repr

/-- One entry of an application's route table: the verb, the path pattern as written in
the source, and the handler closure, identified by the controller object it belongs to and
the property it was read from. -/
structure Route where
  method : Method
  path : String
  owner : Nat
  handler : HandlerName
  deriving DecidableEq, Repr

/-- Applications are mutable objects; they are referred to by identity. -/
abbrev AppId := Nat

/-- Process state seen by `getInstance`: the static field `TuitController.tuitController`
(`none` is `null`), the number of controller objects constructed so far (the next object
identity), and the route table of every application object. -/
structure World where
  tuitController : Option Nat
  allocated : Nat
  routes : AppId → List Route

/-- Effect of `app.METHOD(path, handler)`: the route is appended to the table of `app`. -/
def register (w : World) (app : AppId) (m : Method) (path : String) (owner : Nat)
    (h : HandlerName) : World :=
  { w with routes := fun a => if a = app then w.routes a ++ [⟨m, path, owner, h⟩] else w.routes a }

/-- Model of `TuitController.getInstance = (app) => ...`. Returns the new state and the
identity of the returned controller. -/
def getInstance (w : World) (app : AppId) : World × Nat :=
  match w.tuitController with
  | none =>
    let c := w.allocated
    let w0 : World := { w with tuitController := some c, allocated := w.allocated + 1 }
    let w1 := register w0 app .GET "/tuits" c .findAllTuits
    let w2 := register w1 app .GET "/tuits/:tid" c .findTuitById
    let w3 := register w2 app .GET "/users/:uid/tuits" c .findTuitsByUser
    let w4 := register w3 app .POST "/users/:uid/tuits" c .createTuitByUser
    let w5 := register w4 app .PUT "/tuits/:tid" c .updateTuit
    let w6 := register w5 app .DELETE "/tuits/:tid" c .deleteTuit
    (w6, c)
  | some c => (w, c)

/-- The (method, path pattern) pair of a route. -/
def Route.key (r : Route) : Method × String := (r.method, r.path)

/-! ## Path patterns -/

/-- A segment of a path pattern: a literal, or a named parameter `:name`. -/
inductive PatSeg
  | lit (s : String)
  | param (name : String)
  deriving DecidableEq, Repr

/-- Split a character list at every `/`. -/
def splitSlash : List Char → List (List Char)
  | [] => [[]]
  | c :: cs =>
    if c = '/' then [] :: splitSlash cs
    else
      match splitSlash cs with
      | [] => [[c]]
      | s :: ss => (c :: s) :: ss

/-- Read one non-empty piece of a pattern. -/
def toPatSeg : List Char → PatSeg
  | ':' :: name => .param (String.mk name)
  | cs => .lit (String.mk cs)

/-- Segments of a path pattern such as `/users/:uid/tuits`. -/
def parsePattern (p : String) : List PatSeg :=
  ((splitSlash p.data).filter (fun s => !s.isEmpty)).map toPatSeg

/-- Comparison of a request segment with a literal of the pattern. The router compares
without regard to letter case unless case sensitive routing is enabled. -/
def litMatches (caseSensitive : Bool) (lit seg : String) : Bool :=
  if caseSensitive then seg = lit
  else seg.data.map Char.toLower = lit.data.map Char.toLower

/-- Match the segments of a request path against a pattern, collecting the parameters.
A parameter matches exactly one non-empty segment. -/
def matchSegs (caseSensitive : Bool) : List PatSeg → List String → Option (List (String × String))
  | [], [] => some []
  | .lit l :: ps, s :: ss =>
    if litMatches caseSensitive l s then matchSegs caseSensitive ps ss else none
  | .param n :: ps, s :: ss =>
    if s = "" then none
    else (matchSegs caseSensitive ps ss).map (fun rest => (n, s) :: rest)
  | _, _ => none

/-- Match a request path, given by its segments, against a pattern string. -/
def matchPath (caseSensitive : Bool) (pattern : String) (path : List String) :
    Option (List (String × String)) :=
  matchSegs caseSensitive (parsePattern pattern) path

/-- Does a route registered for `routeMethod` handle a request with method `m`? The methods
must agree, except that a HEAD request is handled by a GET route. -/
def handlesMethod (routeMethod m : Method) : Bool :=
  routeMethod = m || (m = .HEAD && routeMethod = .GET)

/-- Does the route accept a request with this method and path? -/
def Route.accepts (caseSensitive : Bool) (r : Route) (m : Method) (path : List String) : Bool :=
  handlesMethod r.method m && (matchPath caseSensitive r.path path).isSome

/-- A fresh process with one application whose route table is empty. -/
def freshWorld : World := ⟨none, 0, fun _ => []⟩

/-- The route table of a fresh application after `getInstance` ran on it. -/
def tuitRoutes : List Route := ((getInstance freshWorld 0).1).routes 0

/-- Method and shape of a table row: the pattern with the parameter names forgotten. -/
def rowShape (row : Method × String) : Method × List (Option String) :=
  (row.1, (parsePattern row.2).map (fun s => match s with | .lit l => some l | .param _ => none))

/-- The method and path columns of the table in section 6 of the specification, in the
order of its rows. -/
def specSection6Table : List (Method × String) :=
  [(.GET, "/tuits"), (.GET, "/tuits/:id"), (.GET, "/users/:ownerId/tuits"),
   (.POST, "/users/:ownerId/tuits"), (.PUT, "/tuits/:id"), (.DELETE, "/tuits/:id")]

/-! ## Handlers -/

/-- State in which a promise is observed: fulfilled with a value, rejected with an error,
or not settled. -/
inductive Outcome (E V : Type)
  | fulfilled (v : V)
  | rejected (e : E)
  | pending
  deriving DecidableEq, Repr

/-- The parts of a request the handlers read: `req.params` (an absent key is `none`) and
`req.body`. -/
structure Request (V : Type) where
  params : String → Option String
  body : V

/-- The parts of a response the handlers can affect: the status code and the bodies
written so far, oldest first. -/
structure Response (V : Type) where
  statusCode : Nat
  sent : List V
  deriving DecidableEq, Repr

/-- Effect of `res.json(v)`: the value is written as the body; the status is not touched. -/
def Response.json {V : Type} (res : Response V) (v : V) : Response V :=
  { res with sent := res.sent ++ [v] }

/-- Effect of `res.send(v)`: the value is written as the body; the status is not touched. -/
def Response.send {V : Type} (res : Response V) (v : V) : Response V :=
  { res with sent := res.sent ++ [v] }

/-- A response nothing was written to yet; its status is the default 200. -/
def Response.initial {V : Type} : Response V := ⟨200, []⟩

/-- A call of a method of `tuitDao`, with its arguments. -/
inductive DaoCall (V : Type)
  | findAllTuits
  | findTuitsByUser (uid : Option String)
  | findTuitById (tid : Option String)
  | createTuitByUser (uid : Option String) (tuit : V)
  | updateTuit (tid : Option String) (tuit : V)
  | deleteTuit (tid : Option String)
  deriving DecidableEq, Repr

/-- The data-access collaborator seen from the controller: every call, run against the
state of the store, gives the outcome of the returned promise and the next store. -/
abbrev Dao (S E V : Type) := DaoCall V → S → Outcome E V × S

/-- What one handler invocation works on: the store behind the DAO, the response object
and the log of the calls made on `tuitDao`. -/
structure Ctx (S V : Type) where
  store : S
  res : Response V
  calls : List (DaoCall V)

/-- Calling a DAO method: the call is logged and the store updated. -/
def callDao {S E V : Type} (dao : Dao S E V) (c : DaoCall V) (ctx : Ctx S V) :
    Outcome E V × Ctx S V :=
  ((dao c ctx.store).1, { ctx with store := (dao c ctx.store).2, calls := ctx.calls ++ [c] })

/-- The continuation `.then(x => res.json(x))`: it runs only when the promise is fulfilled;
a rejection is passed on as the outcome of the handler. -/
def thenJson {S E V : Type} (p : Outcome E V × Ctx S V) : Outcome E Unit × Ctx S V :=
  match p.1 with
  | .fulfilled v => (.fulfilled (), { p.2 with res := p.2.res.json v })
  | .rejected e => (.rejected e, p.2)
  | .pending => (.pending, p.2)

/-- Handler `findAllTuits`. -/
def findAllTuits {S E V : Type} (dao : Dao S E V) (_req : Request V) (ctx : Ctx S V) :
    Outcome E Unit × Ctx S V :=
  thenJson (callDao dao .findAllTuits ctx)

/-- Handler `findTuitsByUser`. -/
def findTuitsByUser {S E V : Type} (dao : Dao S E V) (req : Request V) (ctx : Ctx S V) :
    Outcome E Unit × Ctx S V :=
  thenJson (callDao dao (.findTuitsByUser (req.params "uid")) ctx)

/-- Handler `findTuitById`. -/
def findTuitById {S E V : Type} (dao : Dao S E V) (req : Request V) (ctx : Ctx S V) :
    Outcome E Unit × Ctx S V :=
  thenJson (callDao dao (.findTuitById (req.params "tid")) ctx)

/-- Handler `createTuitByUser`. -/
def createTuitByUser {S E V : Type} (dao : Dao S E V) (req : Request V) (ctx : Ctx S V) :
    Outcome E Unit × Ctx S V :=
  thenJson (callDao dao (.createTuitByUser (req.params "uid") req.body) ctx)

/-- Handler `updateTuit`. -/
def updateTuit {S E V : Type} (dao : Dao S E V) (req : Request V) (ctx : Ctx S V) :
    Outcome E Unit × Ctx S V :=
  thenJson (callDao dao (.updateTuit (req.params "tid") req.body) ctx)

/-- Handler `deleteTuit`. -/
def deleteTuit {S E V : Type} (dao : Dao S E V) (req : Request V) (ctx : Ctx S V) :
    Outcome E Unit × Ctx S V :=
  thenJson (callDao dao (.deleteTuit (req.params "tid")) ctx)

/-- The handler stored under a property of the controller. -/
def runHandler {S E V : Type} (h : HandlerName) (dao : Dao S E V) (req : Request V)
    (ctx : Ctx S V) : Outcome E Unit × Ctx S V :=
  match h with
  | .findAllTuits => findAllTuits dao req ctx
  | .findTuitsByUser => findTuitsByUser dao req ctx
  | .findTuitById => findTuitById dao req ctx
  | .createTuitByUser => createTuitByUser dao req ctx
  | .updateTuit => updateTuit dao req ctx
  | .deleteTuit => deleteTuit dao req ctx

/-! ## A store behind the DAO -/

/-- A stored tuit: its identifier, the reference to its owner and its fields. -/
structure TuitRecord where
  id : String
  ownerId : Option String
  fields : List (String × String)
  deriving DecidableEq, Repr

/-- Values exchanged with the store: a request payload (a set of fields), a record, a
collection of records, the empty result, and a status object counting affected records. -/
inductive TuitValue
  | null
  | payload (fields : List (String × String))
  | record (r : TuitRecord)
  | records (rs : List TuitRecord)
  | status (count : Nat)
  deriving DecidableEq, Repr

/-- Modelled from the spec: the identifier assigned on creation (`../daos/TuitDao` and the
store behind it are not part of the sources). It is longer than every identifier in use,
hence unique. -/
def freshId (store : List TuitRecord) : String :=
  String.mk (List.replicate ((store.map (fun r => r.id.length)).foldr max 0 + 1) '0')

/-- Modelled from the spec: applying the fields of a payload to the fields of a record;
fields absent from the payload are kept. -/
def applyFields (p old : List (String × String)) : List (String × String) :=
  p ++ old.filter (fun kv => !p.any (fun q => q.1 = kv.1))

/-- Modelled from the spec: the data-access collaborator `../daos/TuitDao`, missing from
the sources, following sections 3, 4.1 and 8: `list`, `listByOwner`, `getById`, `create`,
`update` and `remove` over an ordered collection of records. A body that is not a set of
fields is rejected by the store. -/
def specDao : Dao (List TuitRecord) String TuitValue
  | .findAllTuits, s => (.fulfilled (.records s), s)
  | .findTuitsByUser uid, s => (.fulfilled (.records (s.filter (fun r => r.ownerId = uid))), s)
  | .findTuitById tid, s =>
    (.fulfilled (match s.find? (fun r => some r.id = tid) with
      | some r => .record r
      | none => .null), s)
  | .createTuitByUser uid (.payload p), s =>
    (.fulfilled (.record ⟨freshId s, uid, p⟩), s ++ [⟨freshId s, uid, p⟩])
  | .createTuitByUser _ _, s => (.rejected "malformed payload", s)
  | .updateTuit tid (.payload p), s =>
    (.fulfilled (.status (s.filter (fun r => some r.id = tid)).length),
      s.map (fun r => if some r.id = tid then { r with fields := applyFields p r.fields } else r))
  | .updateTuit _ _, s => (.rejected "malformed payload", s)
  | .deleteTuit tid, s =>
    (.fulfilled (.status (s.filter (fun r => some r.id = tid)).length),
      s.filter (fun r => !(some r.id = tid)))

/-! ## Server bootstrap -/

/-- The values the two server expressions can produce. -/
inductive JsValue
  | undefined
  | str (s : String)
  | num (n : Nat)
  | nan
  deriving DecidableEq, Repr

/-- The operator `+` on two values that are each a string or `undefined`. -/
def jsPlus : Option String → Option String → JsValue
  | some a, some b => .str (a ++ b)
  | some a, none => .str (a ++ "undefined")
  | none, some b => .str ("undefined" ++ b)
  | none, none => .nan

/-- The `length` of a string: the number of its UTF-16 code units. -/
def jsLength (s : String) : Nat :=
  (s.data.map (fun c => if c.toNat < 65536 then 1 else 2)).sum

/-- Handler of `app.get('/add/:a/:b', ...)`. -/
def addHandler (req : Request JsValue) (res : Response JsValue) : Response JsValue :=
  res.send (jsPlus (req.params "a") (req.params "b"))

/-- The constant `PORT`. -/
def PORT : Nat := 4000

/-- The argument of `app.listen`: `process.env.PORT || PORT`. A variable of the environment
is a string or absent; the empty string is the only falsy string. -/
def listenArg (env : String → Option String) : JsValue :=
  match env "PORT" with
  | some s => if s = "" then .num PORT else .str s
  | none => .num PORT

/-- Parameters of a matched route as `req.params`. -/
def paramsOf (ps : List (String × String)) : String → Option String :=
  fun k => (ps.find? (fun kv => kv.1 = k)).map (fun kv => kv.2)

/-- The call on `tuitDao` that each handler is described to make for a request. -/
def delegatedCall {V : Type} (h : HandlerName) (req : Request V) : DaoCall V :=
  match h with
  | .findAllTuits => .findAllTuits
  | .findTuitsByUser => .findTuitsByUser (req.params "uid")
  | .findTuitById => .findTuitById (req.params "tid")
  | .createTuitByUser => .createTuitByUser (req.params "uid") req.body
  | .updateTuit => .updateTuit (req.params "tid") req.body
  | .deleteTuit => .deleteTuit (req.params "tid")

/-- A DAO whose every operation fails: the connection to the store is lost. -/
def failingDao : Dao Unit String TuitValue :=
  fun _ s => (.rejected "connection lost", s)

/-- A DAO over a fixed collection: every operation resolves to that collection. -/
def constDao (v : TuitValue) : Dao Unit String TuitValue :=
  fun _ s => (.fulfilled v, s)

/-- The request of the scenario `POST /users/u1/tuits` with body `text: hello`. -/
def postHello : Request TuitValue :=
  ⟨paramsOf [("uid", "u1")], .payload [("text", "hello")]⟩

/-- The request `GET /tuits/<tid>`. -/
def getTuit (tid : String) : Request TuitValue :=
  ⟨paramsOf [("tid", tid)], .null⟩

/-! ## Theorems: the singleton accessor -/

theorem getInstance_of_null (w : World) (app : AppId) (h : w.tuitController = none) :
    getInstance w app =
      (⟨some w.allocated, w.allocated + 1, fun a =>
          if a = app then
            w.routes a ++
              [⟨.GET, "/tuits", w.allocated, .findAllTuits⟩,
               ⟨.GET, "/tuits/:tid", w.allocated, .findTuitById⟩,
               ⟨.GET, "/users/:uid/tuits", w.allocated, .findTuitsByUser⟩,
               ⟨.POST, "/users/:uid/tuits", w.allocated, .createTuitByUser⟩,
               ⟨.PUT, "/tuits/:tid", w.allocated, .updateTuit⟩,
               ⟨.DELETE, "/tuits/:tid", w.allocated, .deleteTuit⟩]
          else w.routes a⟩, w.allocated) := by
  unfold getInstance
  rw [h]
  simp only [register, Prod.mk.injEq, and_true, World.mk.injEq, true_and]
  funext a
  by_cases ha : a = app <;> simp [ha]

theorem getInstance_of_some (w : World) (app : AppId) (c : Nat)
    (h : w.tuitController = some c) : getInstance w app = (w, c) := by
  unfold getInstance
  rw [h]

theorem tuitRoutes_eq :
    tuitRoutes =
      [⟨.GET, "/tuits", 0, .findAllTuits⟩,
       ⟨.GET, "/tuits/:tid", 0, .findTuitById⟩,
       ⟨.GET, "/users/:uid/tuits", 0, .findTuitsByUser⟩,
       ⟨.POST, "/users/:uid/tuits", 0, .createTuitByUser⟩,
       ⟨.PUT, "/tuits/:tid", 0, .updateTuit⟩,
       ⟨.DELETE, "/tuits/:tid", 0, .deleteTuit⟩] := by
  decide

/-- C1: from the state in which the static field is null, `getInstance a1` followed by
`getInstance a2` returns the same controller twice, the second call changes no route table
(nor anything else), and the routes the two calls added to any application are a list in
which every (method, path pattern) pair occurs at most once. -/
theorem getInstance_idempotent (w : World) (a1 a2 : AppId) (h : w.tuitController = none) :
    (getInstance (getInstance w a1).1 a2).2 = (getInstance w a1).2 ∧
    (getInstance (getInstance w a1).1 a2).1.routes = (getInstance w a1).1.routes ∧
    (getInstance (getInstance w a1).1 a2).1.tuitController = (getInstance w a1).1.tuitController ∧
    (getInstance (getInstance w a1).1 a2).1.allocated = (getInstance w a1).1.allocated ∧
    ∀ a : AppId, ∃ added : List Route,
      (getInstance (getInstance w a1).1 a2).1.routes a = w.routes a ++ added ∧
      (a ≠ a1 → added = []) ∧
      (added.map Route.key).Nodup := by
  have h2 : getInstance (getInstance w a1).1 a2 = ((getInstance w a1).1, w.allocated) := by
    apply getInstance_of_some
    rw [getInstance_of_null w a1 h]
  rw [h2]
  refine ⟨?_, rfl, rfl, rfl, ?_⟩
  · rw [getInstance_of_null w a1 h]
  · intro a
    rw [getInstance_of_null w a1 h]
    by_cases ha : a = a1
    · refine ⟨_, by simp only [ha, if_true]; rfl, fun hne => absurd ha hne, ?_⟩
      simp only [List.map, Route.key]
      decide
    · exact ⟨[], by simp [ha], fun _ => rfl, by simp⟩

/-- Witness of C1: a process whose application 0 already has a route; the accessor is
called on application 0 and then on application 1. -/
theorem getInstance_idempotent_witness :
    (getInstance (getInstance ⟨none, 0, fun _ => [⟨.GET, "/hello", 9, .findAllTuits⟩]⟩ 0).1 1).2 = 0 ∧
    ((getInstance (getInstance ⟨none, 0, fun _ => [⟨.GET, "/hello", 9, .findAllTuits⟩]⟩ 0).1 1).1.routes 1).length = 1 ∧
    ((getInstance (getInstance ⟨none, 0, fun _ => [⟨.GET, "/hello", 9, .findAllTuits⟩]⟩ 0).1 1).1.routes 0).length = 7 := by
  have key := getInstance_idempotent ⟨none, 0, fun _ => [⟨.GET, "/hello", 9, .findAllTuits⟩]⟩ 0 1 rfl
  refine ⟨?_, ?_, ?_⟩
  · rw [key.1]; rfl
  · rw [key.2.1]; rfl
  · rw [key.2.1]; rfl

/-- C2: on the first call (static field null) exactly six routes are appended to the table
of `app`, in the order GET /tuits, GET /tuits/:tid, GET /users/:uid/tuits,
POST /users/:uid/tuits, PUT /tuits/:tid, DELETE /tuits/:tid, each bound to the handler of
the returned controller named in the class comment; the routes already present stay in
front unchanged, other applications are untouched, and the appended rows have the methods
and path shapes of the table of section 6 in the same order. -/
theorem getInstance_registers_six (w : World) (app : AppId) (h : w.tuitController = none) :
    (getInstance w app).1.routes app =
      w.routes app ++
        [⟨.GET, "/tuits", (getInstance w app).2, .findAllTuits⟩,
         ⟨.GET, "/tuits/:tid", (getInstance w app).2, .findTuitById⟩,
         ⟨.GET, "/users/:uid/tuits", (getInstance w app).2, .findTuitsByUser⟩,
         ⟨.POST, "/users/:uid/tuits", (getInstance w app).2, .createTuitByUser⟩,
         ⟨.PUT, "/tuits/:tid", (getInstance w app).2, .updateTuit⟩,
         ⟨.DELETE, "/tuits/:tid", (getInstance w app).2, .deleteTuit⟩] ∧
    (∀ a : AppId, a ≠ app → (getInstance w app).1.routes a = w.routes a) ∧
    (((getInstance w app).1.routes app).drop (w.routes app).length).map
        (fun r => rowShape r.key) = specSection6Table.map rowShape ∧
    (getInstance w app).1.tuitController = some (getInstance w app).2 := by
  rw [getInstance_of_null w app h]
  refine ⟨by simp, fun a ha => by simp [ha], ?_, rfl⟩
  simp only [if_true, List.drop_left, List.map, Route.key]
  decide

/-- Witness of C2: the first call on an application that already serves `/hello`. -/
theorem getInstance_registers_six_witness :
    ((getInstance ⟨none, 3, fun _ => [⟨.GET, "/hello", 9, .findAllTuits⟩]⟩ 0).1.routes 0).map
        Route.key =
      [(.GET, "/hello"), (.GET, "/tuits"), (.GET, "/tuits/:tid"), (.GET, "/users/:uid/tuits"),
       (.POST, "/users/:uid/tuits"), (.PUT, "/tuits/:tid"), (.DELETE, "/tuits/:tid")] := by
  rw [(getInstance_registers_six ⟨none, 3, fun _ => [⟨.GET, "/hello", 9, .findAllTuits⟩]⟩ 0 rfl).1]
  rfl

/-! ## Theorems: route patterns -/

theorem parsePattern_tuits : parsePattern "/tuits" = [.lit "tuits"] := by decide

theorem parsePattern_tuits_tid : parsePattern "/tuits/:tid" = [.lit "tuits", .param "tid"] := by
  decide

theorem parsePattern_users_uid_tuits :
    parsePattern "/users/:uid/tuits" = [.lit "users", .param "uid", .lit "tuits"] := by
  decide

theorem litMatches_self (cs : Bool) (l : String) : litMatches cs l l = true := by
  cases cs <;> simp [litMatches]

/-- C9: for every request method (a HEAD request being served by GET routes), every request
path and either setting of case sensitivity, at most one of the six routes registered by
`getInstance` accepts the request, whatever their order, since no two accept the same; the path
`/tuits` is accepted by the first GET route only, `/tuits/x` by GET `/tuits/:tid` only and
`/users/x/tuits` by GET `/users/:uid/tuits` only (for a non-empty segment `x`). -/
theorem tuit_routes_never_shadow (cs : Bool) (m : Method) (path : List String) :
    (tuitRoutes.filter (fun r => r.accepts cs m path)).length ≤ 1 ∧
    tuitRoutes.filter (fun r => r.accepts cs .GET ["tuits"]) =
      [⟨.GET, "/tuits", 0, .findAllTuits⟩] ∧
    (∀ x : String, x ≠ "" →
      tuitRoutes.filter (fun r => r.accepts cs .GET ["tuits", x]) =
        [⟨.GET, "/tuits/:tid", 0, .findTuitById⟩] ∧
      tuitRoutes.filter (fun r => r.accepts cs .GET ["users", x, "tuits"]) =
        [⟨.GET, "/users/:uid/tuits", 0, .findTuitsByUser⟩]) := by
  rw [tuitRoutes_eq]
  refine ⟨?_, ?_, ?_⟩
  · rcases path with _ | ⟨a, _ | ⟨b, _ | ⟨c, _ | ⟨d, rest⟩⟩⟩⟩ <;> cases m <;>
      simp [List.filter_cons, Route.accepts, handlesMethod, matchPath, parsePattern_tuits,
        parsePattern_tuits_tid, parsePattern_users_uid_tuits, matchSegs] <;>
      split_ifs <;> simp
  · simp [List.filter_cons, Route.accepts, handlesMethod, matchPath, parsePattern_tuits,
      parsePattern_tuits_tid, parsePattern_users_uid_tuits, matchSegs, litMatches_self]
  · intro x hx
    constructor <;>
      simp [List.filter_cons, Route.accepts, handlesMethod, matchPath, parsePattern_tuits,
        parsePattern_tuits_tid, parsePattern_users_uid_tuits, matchSegs, litMatches_self, hx]

/-- Witness of C9: the request GET /tuits/42. -/
theorem tuit_routes_never_shadow_witness :
    tuitRoutes.filter (fun r => r.accepts false .GET ["tuits", "42"]) =
      [⟨.GET, "/tuits/:tid", 0, .findTuitById⟩] :=
  ((tuit_routes_never_shadow false .GET []).2.2 "42" (by decide)).1

/-! ## Theorems: the handlers -/

theorem runHandler_eq {S E V : Type} (h : HandlerName) (dao : Dao S E V) (req : Request V)
    (ctx : Ctx S V) : runHandler h dao req ctx = thenJson (callDao dao (delegatedCall h req) ctx) := by
  cases h <;> rfl

/-- C3: each handler makes the DAO call with the arguments read from the request
(`findAllTuits()`, `findTuitsByUser(params.uid)`, `findTuitById(params.tid)`,
`createTuitByUser(params.uid, body)`, `updateTuit(params.tid, body)`,
`deleteTuit(params.tid)`), and when that call resolves to `v` the body written is exactly
`v`, appended to what the response held before. -/
theorem handlers_pass_result_through {S E V : Type} (dao : Dao S E V) (req : Request V)
    (ctx : Ctx S V) :
    (∀ v, (dao .findAllTuits ctx.store).1 = .fulfilled v →
      (findAllTuits dao req ctx).2.res.sent = ctx.res.sent ++ [v] ∧
      (findAllTuits dao req ctx).2.calls = ctx.calls ++ [.findAllTuits]) ∧
    (∀ v, (dao (.findTuitsByUser (req.params "uid")) ctx.store).1 = .fulfilled v →
      (findTuitsByUser dao req ctx).2.res.sent = ctx.res.sent ++ [v] ∧
      (findTuitsByUser dao req ctx).2.calls = ctx.calls ++ [.findTuitsByUser (req.params "uid")]) ∧
    (∀ v, (dao (.findTuitById (req.params "tid")) ctx.store).1 = .fulfilled v →
      (findTuitById dao req ctx).2.res.sent = ctx.res.sent ++ [v] ∧
      (findTuitById dao req ctx).2.calls = ctx.calls ++ [.findTuitById (req.params "tid")]) ∧
    (∀ v, (dao (.createTuitByUser (req.params "uid") req.body) ctx.store).1 = .fulfilled v →
      (createTuitByUser dao req ctx).2.res.sent = ctx.res.sent ++ [v] ∧
      (createTuitByUser dao req ctx).2.calls =
        ctx.calls ++ [.createTuitByUser (req.params "uid") req.body]) ∧
    (∀ v, (dao (.updateTuit (req.params "tid") req.body) ctx.store).1 = .fulfilled v →
      (updateTuit dao req ctx).2.res.sent = ctx.res.sent ++ [v] ∧
      (updateTuit dao req ctx).2.calls = ctx.calls ++ [.updateTuit (req.params "tid") req.body]) ∧
    (∀ v, (dao (.deleteTuit (req.params "tid")) ctx.store).1 = .fulfilled v →
      (deleteTuit dao req ctx).2.res.sent = ctx.res.sent ++ [v] ∧
      (deleteTuit dao req ctx).2.calls = ctx.calls ++ [.deleteTuit (req.params "tid")]) := by
  refine ⟨?_, ?_, ?_, ?_, ?_, ?_⟩ <;> intro v hv <;>
    simp [findAllTuits, findTuitsByUser, findTuitById, createTuitByUser, updateTuit,
      deleteTuit, thenJson, callDao, hv, Response.json]

/-- Witness of C3: a DAO resolving every call to the empty result; the lookup handler
writes that result as it is, and the list handler a collection in its order. -/
theorem handlers_pass_result_through_witness :
    (findTuitById (constDao .null) (getTuit "t9") ⟨(), Response.initial, []⟩).2.res.sent =
      [.null] ∧
    (findAllTuits (constDao (.records [⟨"b", none, []⟩, ⟨"a", none, []⟩])) (getTuit "t9")
        ⟨(), Response.initial, []⟩).2.res.sent =
      [.records [⟨"b", none, []⟩, ⟨"a", none, []⟩]] :=
  ⟨((handlers_pass_result_through (constDao .null) (getTuit "t9")
      ⟨(), Response.initial, []⟩).2.2.1 .null rfl).1,
   ((handlers_pass_result_through (constDao (.records [⟨"b", none, []⟩, ⟨"a", none, []⟩]))
      (getTuit "t9") ⟨(), Response.initial, []⟩).1 _ rfl).1⟩

/-- C4, as stated, fails: with a DAO whose promise rejects, the handler `findAllTuits`
makes its one DAO call and writes no response at all. -/
theorem one_response_counterexample :
    (runHandler .findAllTuits failingDao (getTuit "t9") ⟨(), Response.initial, []⟩).2.calls =
      [.findAllTuits] ∧
    (runHandler .findAllTuits failingDao (getTuit "t9") ⟨(), Response.initial, []⟩).2.res.sent =
      [] ∧
    ¬ ((runHandler .findAllTuits failingDao (getTuit "t9")
        ⟨(), Response.initial, []⟩).2.res.sent.length = 1) := by
  decide

/-- C4, amended: every handler, for every request and DAO, makes exactly one DAO call (the
log grows by the one delegated call); it writes exactly one response when the promise of
that call is fulfilled and none when it is rejected or never settles, so never more than
one. -/
theorem one_call_at_most_one_response {S E V : Type} (h : HandlerName) (dao : Dao S E V)
    (req : Request V) (ctx : Ctx S V) :
    (runHandler h dao req ctx).2.calls = ctx.calls ++ [delegatedCall h req] ∧
    (runHandler h dao req ctx).2.res.sent =
      (match (dao (delegatedCall h req) ctx.store).1 with
        | .fulfilled v => ctx.res.sent ++ [v]
        | .rejected _ => ctx.res.sent
        | .pending => ctx.res.sent) ∧
    (runHandler h dao req ctx).2.res.sent.length ≤ ctx.res.sent.length + 1 := by
  rw [runHandler_eq]
  cases hd : (dao (delegatedCall h req) ctx.store).1 <;>
    simp [thenJson, callDao, hd, Response.json]

/-- C5: when the promise of the delegated DAO call rejects with `e`, the outcome of the
handler is the rejection `e`, and the response is left as it was: no body written, status
untouched. -/
theorem rejection_not_caught {S E V : Type} (h : HandlerName) (dao : Dao S E V)
    (req : Request V) (ctx : Ctx S V) (e : E)
    (hrej : (dao (delegatedCall h req) ctx.store).1 = .rejected e) :
    (runHandler h dao req ctx).1 = .rejected e ∧
    (runHandler h dao req ctx).2.res = ctx.res := by
  rw [runHandler_eq]
  simp [thenJson, callDao, hrej]

/-- Witness of C5: the update handler over a DAO that lost its connection. -/
theorem rejection_not_caught_witness :
    (runHandler .updateTuit failingDao postHello ⟨(), Response.initial, []⟩).1 =
      .rejected "connection lost" ∧
    (runHandler .updateTuit failingDao postHello ⟨(), Response.initial, []⟩).2.res =
      Response.initial :=
  rejection_not_caught .updateTuit failingDao postHello ⟨(), Response.initial, []⟩
    "connection lost" rfl

/-- C6: no handler changes the status of the response, whatever the request, the DAO and
the outcome of its call; a response that starts with the default status 200 ends with
status 200. -/
theorem status_never_set {S E V : Type} (h : HandlerName) (dao : Dao S E V)
    (req : Request V) (ctx : Ctx S V) :
    (runHandler h dao req ctx).2.res.statusCode = ctx.res.statusCode ∧
    (runHandler h dao req ⟨ctx.store, Response.initial, ctx.calls⟩).2.res.statusCode = 200 := by
  rw [runHandler_eq, runHandler_eq]
  constructor
  · cases hd : (dao (delegatedCall h req) ctx.store).1 <;>
      simp [thenJson, callDao, hd, Response.json]
  · cases hd : (dao (delegatedCall h req) ctx.store).1 <;>
      simp [thenJson, callDao, hd, Response.json, Response.initial]

/-! ## Theorems: create then read -/

theorem foldr_max_ge (l : List Nat) : ∀ n ∈ l, n ≤ l.foldr max 0 := by
  induction l with
  | nil => intro n hn; cases hn
  | cons a t ih =>
    intro n hn
    rcases List.mem_cons.mp hn with rfl | hmem
    · exact le_max_left _ _
    · exact le_trans (ih n hmem) (le_max_right _ _)

theorem freshId_ne (store : List TuitRecord) (r : TuitRecord) (hr : r ∈ store) :
    r.id ≠ freshId store := by
  intro heq
  have hlen : r.id.length ≤ (store.map (fun r => r.id.length)).foldr max 0 :=
    foldr_max_ge _ _ (List.mem_map.mpr ⟨r, hr, rfl⟩)
  have hfresh : (freshId store).length = (store.map (fun r => r.id.length)).foldr max 0 + 1 := by
    unfold freshId
    exact List.length_replicate _ _
  rw [heq, hfresh] at hlen
  omega

theorem find_appended (store : List TuitRecord) (r : TuitRecord) (hr : r.id = freshId store) :
    (store ++ [r]).find? (fun x => decide (some x.id = some (freshId store))) = some r := by
  have hnone : store.find? (fun x => decide (some x.id = some (freshId store))) = none := by
    rw [List.find?_eq_none]
    intro x hx
    simpa using freshId_ne store x hx
  rw [List.find?_append, hnone]
  simp [hr]

/-- C7: over the store modelled from the specification, the create handler run with
`params.uid = uid` and a body that is the payload `p` responds with a record carrying an
assigned identifier, the owner `uid` and the fields `p`, and a lookup handler run afterwards
with `params.tid` equal to that identifier responds with the same record. -/
theorem create_then_read (store : List TuitRecord) (uid : String)
    (p : List (String × String)) (req : Request TuitValue) (res : Response TuitValue)
    (calls : List (DaoCall TuitValue))
    (huid : req.params "uid" = some uid) (hbody : req.body = .payload p) :
    ∃ id : String,
      (createTuitByUser specDao req ⟨store, res, calls⟩).1 = .fulfilled () ∧
      (createTuitByUser specDao req ⟨store, res, calls⟩).2.res.sent =
        res.sent ++ [.record ⟨id, some uid, p⟩] ∧
      ∀ (req2 : Request TuitValue) (res2 : Response TuitValue)
        (calls2 : List (DaoCall TuitValue)), req2.params "tid" = some id →
        (findTuitById specDao req2
            ⟨(createTuitByUser specDao req ⟨store, res, calls⟩).2.store, res2, calls2⟩).2.res.sent =
          res2.sent ++ [.record ⟨id, some uid, p⟩] := by
  refine ⟨freshId store, ?_, ?_, ?_⟩
  · simp [createTuitByUser, thenJson, callDao, specDao, huid, hbody]
  · simp [createTuitByUser, thenJson, callDao, specDao, huid, hbody, Response.json]
  · intro req2 res2 calls2 htid
    simp only [createTuitByUser, findTuitById, thenJson, callDao, specDao, huid, hbody, htid,
      Response.json]
    rw [find_appended store ⟨freshId store, some uid, p⟩ rfl]

/-- Witness of C7: the scenario `POST /users/u1/tuits` with body `text: hello` on an empty
store, where the identifier assigned is `0`, followed by `GET /tuits/0`. -/
theorem create_then_read_witness :
    (createTuitByUser specDao postHello ⟨[], Response.initial, []⟩).2.res.sent =
      [.record ⟨"0", some "u1", [("text", "hello")]⟩] ∧
    (findTuitById specDao (getTuit "0")
        ⟨(createTuitByUser specDao postHello ⟨[], Response.initial, []⟩).2.store,
          Response.initial, []⟩).2.res.sent =
      [.record ⟨"0", some "u1", [("text", "hello")]⟩] := by
  obtain ⟨id, _, hsent, hread⟩ :=
    create_then_read [] "u1" [("text", "hello")] postHello Response.initial [] (by decide) rfl
  have hid : id = "0" := by
    have hrun : (createTuitByUser specDao postHello ⟨[], Response.initial, []⟩).2.res.sent =
        [.record ⟨"0", some "u1", [("text", "hello")]⟩] := by decide
    rw [hrun] at hsent
    simpa [Response.initial] using hsent.symm
  subst hid
  exact ⟨hsent, hread (getTuit "0") Response.initial [] (by decide)⟩

/-! ## Theorems: the server -/

/-- C8: `app.listen` receives the value of the environment variable `PORT` when it is set
to a non-empty string, and the constant 4000 when it is unset or empty. -/
theorem listen_port (env : String → Option String) :
    (∀ s : String, env "PORT" = some s → s ≠ "" → listenArg env = .str s) ∧
    (env "PORT" = none → listenArg env = .num 4000) ∧
    (env "PORT" = some "" → listenArg env = .num 4000) := by
  refine ⟨fun s hs hne => ?_, fun h => ?_, fun h => ?_⟩
  · simp [listenArg, hs, hne]
  · simp [listenArg, h, PORT]
  · simp [listenArg, h, PORT]

/-- Witness of C8: an environment with `PORT=8080`, and one without `PORT`. -/
theorem listen_port_witness :
    listenArg (fun k => if k = "PORT" then some "8080" else none) = .str "8080" ∧
    listenArg (fun _ => none) = .num 4000 :=
  ⟨(listen_port (fun k => if k = "PORT" then some "8080" else none)).1 "8080" (by decide)
      (by decide),
   (listen_port (fun _ => none)).2.1 rfl⟩

theorem jsLength_append (a b : String) : jsLength (a ++ b) = jsLength a + jsLength b := by
  simp [jsLength, String.data_append, List.map_append, List.sum_append]

/-- C10: for parameters `a` and `b` the `/add/:a/:b` handler sends the string `a` followed
by `b` (not a sum), whose length is the sum of the two lengths, counted in characters or in
UTF-16 units; the status is not touched. -/
theorem add_concatenates (req : Request JsValue) (res : Response JsValue) (a b : String)
    (ha : req.params "a" = some a) (hb : req.params "b" = some b) :
    (addHandler req res).sent = res.sent ++ [.str (a ++ b)] ∧
    (addHandler req res).statusCode = res.statusCode ∧
    (a ++ b).length = a.length + b.length ∧
    jsLength (a ++ b) = jsLength a + jsLength b := by
  refine ⟨?_, ?_, String.length_append a b, jsLength_append a b⟩
  · simp [addHandler, Response.send, jsPlus, ha, hb]
  · simp [addHandler, Response.send]

/-- Witness of C10: the request `/add/1/2`, with the parameters as the router extracts
them; the body is the string `12`. -/
theorem add_concatenates_witness :
    matchPath false "/add/:a/:b" ["add", "1", "2"] = some [("a", "1"), ("b", "2")] ∧
    (addHandler ⟨paramsOf [("a", "1"), ("b", "2")], .undefined⟩ Response.initial).sent =
      [] ++ [.str ("1" ++ "2")] ∧
    "1" ++ "2" = "12" :=
  ⟨by decide,
   (add_concatenates ⟨paramsOf [("a", "1"), ("b", "2")], .undefined⟩ Response.initial "1" "2"
      (by decide) (by decide)).1,
   by decide⟩

end TuitApp
